import Mathlib

/-!
Shallow embedding of the SQL expression engine in `src/engine/mod.rs`
(`gandronchik/sql_test_engine`), together with proofs about its evaluator.

Modelling conventions:

* Rust `f64` and its operations (`+`, `-`, `*`, `>`, `sqrt`) together with
  `str::parse::<f64>` are abstracted into a parameter structure `FloatOps F`:
  the engine's control flow never inspects the numeric values themselves, so
  every theorem below is proved for an arbitrary model of the floating-point
  operations, which covers IEEE-754 `f64` in particular.  For concrete
  witnesses we instantiate `F := ℤ`.
* A Rust `Result<CalcResult, CalcError>` becomes `Except CalcError (CalcResult F)`.
* A Rust panic / process abort (`unwrap` on `None` / `Err`) is modelled by
  wrapping evaluation results in `Option`: `none` means the process aborts.
* The external `sqlparser` crate is out of scope for the engine; only the AST
  shapes the engine inspects are embedded.  AST constructors the engine never
  distinguishes are collapsed into explicit `other*` variants, and struct
  fields the engine never reads (e.g. `Select.from`, `Query.order_by`) are
  omitted.
-/

/-- Abstraction of Rust `f64` and the operations the engine uses on it.
`parse` models `str::parse::<f64>` (`none` = `Err(ParseFloatError)`). -/
structure FloatOps (F : Type) where
  add : F → F → F
  sub : F → F → F
  mul : F → F → F
  gt : F → F → Bool
  sqrt : F → F
  parse : String → Option F

/-- Rust `CalcResult` from `src/engine/mod.rs` lines 7-12. -/
inductive CalcResult (F : Type) where
  | Num (v : F)
  | Bool (b : Bool)
  | Str (s : String)
deriving DecidableEq, Repr

/-- Rust `CalcError` from `src/engine/mod.rs` lines 24-31. -/
inductive CalcError where
  | InvalidType (msg : String)
  | UnsupportedOperator (msg : String)
  | UnsupportedFunc (msg : String)
  | InvalidRequestFormat (msg : String)
  | Unexpected
deriving DecidableEq, Repr

/-- Model of `sqlparser::ast::Ident` (the fields the engine reads: `value`;
`quote_style` kept for shape). -/
structure Ident where
  value : String
  quote_style : Option Char := none
deriving DecidableEq, Repr

/-- The `sqlparser::ast::BinaryOperator` variants relevant to the engine:
the four supported ones plus representatives of the catch-all `_` arm. -/
inductive BinaryOperator where
  | Plus
  | Minus
  | Multiply
  | Divide
  | Modulo
  | Gt
  | Lt
  | GtEq
  | LtEq
  | Eq
  | NotEq
  | And
  | Or
deriving DecidableEq, Repr

/-- Model of `sqlparser::ast::DataType`: the engine only distinguishes `Int(_)`. -/
inductive DataType where
  | Int (size : Option Nat)
  | otherDataType
deriving DecidableEq, Repr

/-- Model of `sqlparser::ast::Value`: the variants the engine distinguishes
(`Number`, `DoubleQuotedString`, `SingleQuotedString`) plus representatives
of the `_` arm of `parse_primitive_value`. -/
inductive Value where
  | Number (text : String) (long : Bool)
  | DoubleQuotedString (s : String)
  | SingleQuotedString (s : String)
  | Boolean (b : Bool)
  | Null
  | otherValue
deriving DecidableEq, Repr

mutual
/-- Model of `sqlparser::ast::Expr`: the node shapes `calcE` (lines 150-162)
distinguishes, plus representatives of its `_` arm. -/
inductive Expr where
  | BinaryOp (left : Expr) (op : BinaryOperator) (right : Expr)
  | Function (name : List Ident) (args : List FunctionArg)
  | Value (value : Value)
  | Nested (e : Expr)
  | Cast (e : Expr) (dataType : DataType)
  | Identifier (id : Ident)
  | otherExpr
deriving Repr

/-- Model of `sqlparser::ast::FunctionArg`. -/
inductive FunctionArg where
  | Named (name : Ident) (arg : Expr)
  | Unnamed (arg : Expr)
deriving Repr
end

/-- Rust `apply` from `src/engine/mod.rs` lines 47-61. -/
def apply (M : FloatOps F) (operator : BinaryOperator) (first_val second_val : F) :
    Except CalcError (CalcResult F) :=
  match operator with
  | .Plus => .ok (.Num (M.add first_val second_val))
  | .Minus => .ok (.Num (M.sub first_val second_val))
  | .Multiply => .ok (.Num (M.mul first_val second_val))
  | .Gt => .ok (.Bool (M.gt first_val second_val))
  | _ => .error (.UnsupportedOperator "You try to use unsupported operator")

/-- Rust `parse_primitive_value` from `src/engine/mod.rs` lines 95-104.
The `Number` arm re-parses the literal text and calls `.unwrap()` on the
result, so a failed parse aborts the process: result `none`. -/
def parse_primitive_value (M : FloatOps F) : Value → Option (Except CalcError (CalcResult F))
  | .Number number _ => (M.parse number).map (fun v => .ok (.Num v))
  | .DoubleQuotedString string => some (.ok (.Str string))
  | .SingleQuotedString string => some (.ok (.Str string))
  | _ => some (.error (.InvalidType "You try to use unsupported type"))

/-- The body of the `parse_num` closure in `calc_binary_operation`
(lines 68-76), applied to an already-computed `calcE` result. -/
def parse_num_res : Option (Except CalcError (CalcResult F)) → Option (Except CalcError F)
  | some (.ok (.Num res)) => some (.ok res)
  | some (.error e) => some (.error e)
  | some (.ok _) => some (.error (.InvalidType "Binary operators supported by Numbers only"))
  | none => none

/-- Lines 78-92 of `calc_binary_operation`, applied to the list of mapped
`parse_num` results: `partition(Result::is_ok)` followed by the unwraps is
fused into the two `filterMap`s (both preserve order, as `partition` does). -/
def finishBinaryOp (M : FloatOps F) (op : BinaryOperator)
    (results : List (Except CalcError F)) : Except CalcError (CalcResult F) :=
  let numbers := results.filterMap (fun r => match r with | .ok v => some v | .error _ => none)
  let errors := results.filterMap (fun r => match r with | .error e => some e | .ok _ => none)
  if h : numbers.length = 2 then
    apply M op (numbers.get ⟨0, by omega⟩) (numbers.get ⟨1, by omega⟩)
  else
    match errors with
    | e :: _ => .error e
    | [] => .error .Unexpected

/-- Lines 122-130 of `calc_function`: the match on the already-computed
`calcE` result of the SQRT argument. -/
def sqrtResult (M : FloatOps F) :
    Option (Except CalcError (CalcResult F)) → Option (Except CalcError (CalcResult F))
  | some (.error e) => some (.error e)
  | some (.ok (.Num num)) => some (.ok (.Num (M.sqrt num)))
  | some (.ok _) => some (.error (.InvalidType "SQRT supports only Number"))
  | none => none

/-- Lines 138-147 of `castE`: the match on the already-computed `calcE`
result of the inner expression. -/
def castResult (M : FloatOps F) :
    Option (Except CalcError (CalcResult F)) → Option (Except CalcError (CalcResult F))
  | some (.ok (.Str res)) =>
      match M.parse res with
      | some v => some (.ok (.Num v))
      | none => some (.error (.InvalidType "CAST supports only Number"))
  | some (.error e) => some (.error e)
  | some (.ok _) => some (.error .Unexpected)
  | none => none

/-- Rust `calc` (here `calcE`) from `src/engine/mod.rs` lines 150-162, with the bodies of its
mutually defined helpers `calc_binary_operation` (63-93), `calc_function`
(106-135) and `castE` (137-148) inlined at their call sites; each helper is
restated below as a standalone definition, with an equation lemma tying it
to the corresponding branch here.  `none` = process abort (a Rust panic:
the number re-parse `.unwrap()` in `parse_primitive_value`, or
`func.name.0.get(0).unwrap()` on an empty function name). -/
def calcE (M : FloatOps F) : Expr → Option (Except CalcError (CalcResult F))
  | .BinaryOp left op right => do
      let lres ← parse_num_res (calcE M left)
      let rres ← parse_num_res (calcE M right)
      some (finishBinaryOp M op [lres, rres])
  | .Function name args =>
      match name with
      | [] => none
      | id :: _ =>
        if id.value = "SQRT" then
          match args with
          | [] => some (.error (.InvalidType "SQRT must has an argument"))
          | .Named _ a :: _ => sqrtResult M (calcE M a)
          | .Unnamed a :: _ => sqrtResult M (calcE M a)
        else some (.error (.UnsupportedFunc "Only SQRT func is supported"))
  | .Value value => parse_primitive_value M value
  | .Nested e => calcE M e
  | .Cast e (.Int _) => castResult M (calcE M e)
  | _ => some (.error .Unexpected)
termination_by structural e => e

/-- The `parse_num` closure of `calc_binary_operation` (lines 68-76). -/
def parse_num (M : FloatOps F) (expr : Expr) : Option (Except CalcError F) :=
  parse_num_res (calcE M expr)

/-- Rust `calc_binary_operation` from `src/engine/mod.rs` lines 63-93,
as a standalone definition in terms of `calcE`. -/
def calc_binary_operation (M : FloatOps F) (left : Expr) (op : BinaryOperator)
    (right : Expr) : Option (Except CalcError (CalcResult F)) := do
  let lres ← parse_num M left
  let rres ← parse_num M right
  some (finishBinaryOp M op [lres, rres])

/-- Rust `calc_function` from `src/engine/mod.rs` lines 106-135, as a standalone
definition in terms of `calcE`. -/
def calc_function (M : FloatOps F) (name : List Ident) (args : List FunctionArg) :
    Option (Except CalcError (CalcResult F)) :=
  match name with
  | [] => none
  | id :: _ =>
    if id.value = "SQRT" then
      match args with
      | [] => some (.error (.InvalidType "SQRT must has an argument"))
      | .Named _ a :: _ => sqrtResult M (calcE M a)
      | .Unnamed a :: _ => sqrtResult M (calcE M a)
    else some (.error (.UnsupportedFunc "Only SQRT func is supported"))

/-- Rust `cast` (here `castE`: the name is taken in Lean) from
`src/engine/mod.rs` lines 137-148, as a standalone definition in terms of
`calcE`. -/
def castE (M : FloatOps F) (expr : Expr) : Option (Except CalcError (CalcResult F)) :=
  castResult M (calcE M expr)

structure ParseError where
  message : String
deriving DecidableEq, Repr

/-- Model of `sqlparser::ast::SelectItem`: the variants `exec` distinguishes. -/
inductive SelectItem where
  | UnnamedExpr (e : Expr)
  | ExprWithAlias (e : Expr) (aliasName : Ident)
  | QualifiedWildcard (name : List Ident)
  | Wildcard

/-- Model of `sqlparser::ast::SetExpr`: `exec` only distinguishes `Select`, whose one
field it reads (`projection`) is kept; the rest collapse to the `_` arm. -/
inductive SetExpr where
  | Select (projection : List SelectItem)
  | SetOperation
  | otherSetExpr

/-- Model of `sqlparser::ast::Statement`: `exec` only distinguishes `Query`, whose one
field it reads (`body`) is kept; the rest collapse to the `_` arm. -/
inductive Statement where
  | Query (body : SetExpr)
  | Insert
  | otherStatement

/-- Rust `exec` from `src/engine/mod.rs` lines 164-207.  The call to the external
`Parser::parse_sql` is at the out-of-scope parser boundary, so `exec` is
modelled as a function of that call's result `res`. -/
def exec (M : FloatOps F) (res : Except ParseError (List Statement)) :
    Option (Except CalcError (CalcResult F)) :=
  match res with
  | .error _ => some (.error (.InvalidRequestFormat "It is not SQL, man"))
  | .ok ast =>
    match ast with
    | [] => some (.error (.InvalidRequestFormat "It is not SQL, man"))
    | stmt :: _ =>
      match stmt with
      | .Query body =>
        match body with
        | .Select projection =>
          match projection with
          | [] => some (.error (.InvalidRequestFormat "only SELECT is supported"))
          | .UnnamedExpr expr :: _ => calcE M expr
          | _ :: _ =>
              some (.error (.InvalidRequestFormat "only Unnamed expressions are supported"))
        | _ => some (.error (.InvalidRequestFormat "only SELECT is supported"))
      | _ => some (.error (.InvalidRequestFormat "only Queries are supported"))

/-- The value of a decimal digit character, used by the witness model's

literal parser. -/
def charDigit (c : Char) : Option Nat :=
  if c = '0' then some 0 else if c = '1' then some 1 else if c = '2' then some 2
  else if c = '3' then some 3 else if c = '4' then some 4 else if c = '5' then some 5
  else if c = '6' then some 6 else if c = '7' then some 7 else if c = '8' then some 8
  else if c = '9' then some 9 else none

/-- Left-to-right accumulation of decimal digits, used by the witness model's
literal parser; fails on the first non-digit character. -/
def parseDigitsAux : List Char → Nat → Option Nat
  | [], acc => some acc
  | c :: rest, acc =>
    match charDigit c with
    | some d => parseDigitsAux rest (10 * acc + d)
    | none => none

/-- The witness model's numeric-literal parser: nonempty strings of decimal
digits parse to the corresponding number; everything else fails. -/
def parseZ (s : String) : Option ℤ :=
  match s.data with
  | [] => none
  | cs => (parseDigitsAux cs 0).map (fun n => (n : ℤ))

/-- A concrete, fully computable model of the floating-point operations, used
to instantiate the parametric theorems at concrete inputs: `F := ℤ`, `parse`
accepts decimal natural-number literals, and `sqrt` (whose numeric behaviour
none of the control-flow theorems depends on) is the identity map. -/
instance {ε α : Type} [DecidableEq ε] [DecidableEq α] : DecidableEq (Except ε α)
  | .ok a, .ok b =>
      if h : a = b then .isTrue (by rw [h]) else .isFalse (by simp [h])
  | .ok _, .error _ => .isFalse (by simp)
  | .error _, .ok _ => .isFalse (by simp)
  | .error a, .error b =>
      if h : a = b then .isTrue (by rw [h]) else .isFalse (by simp [h])

def zModel : FloatOps ℤ where
  add a b := a + b
  sub a b := a - b
  mul a b := a * b
  gt a b := decide (b < a)
  sqrt v := v
  parse := parseZ

/-- Whether a `CalcError` is of kind `InvalidRequestFormat`. -/
def errIsIRF : CalcError → Bool
  | .InvalidRequestFormat _ => true
  | _ => false

/-- Whether an evaluation outcome is an `InvalidRequestFormat` error. -/
def resultIsIRF : Option (Except CalcError (CalcResult F)) → Bool
  | some (.error e) => errIsIRF e
  | _ => false

/-- Whether a `parse_num` outcome is an `InvalidRequestFormat` error. -/
def numResIsIRF : Option (Except CalcError F) → Bool
  | some (.error e) => errIsIRF e
  | _ => false

/-- Specification of binary-operation evaluation, written from the claim
about `calc_binary_operation` to be compared with it: reduce the left
operand, then the right; if either aborts the whole evaluation aborts, if
the left fails its error is surfaced, otherwise if the right fails its error
is surfaced, and only when both reduce to numbers is the operator applied.
No other outcome exists — in particular no `Unexpected` fallback. -/
def binOpSpec (M : FloatOps F) (left : Expr) (op : BinaryOperator) (right : Expr) :
    Option (Except CalcError (CalcResult F)) :=
  match parse_num M left with
  | none => none
  | some (.error e) => (parse_num M right).map (fun _ => .error e)
  | some (.ok a) =>
    match parse_num M right with
    | none => none
    | some (.error e) => some (.error e)
    | some (.ok b) => some (apply M op a b)

/-- The claim's enumeration of the request shapes `exec` rejects, written
from the spec to be compared with `exec`: parser failure, empty statement
list, first statement not a query, query body not a plain `SELECT`, empty
projection list, or first projection item not an unnamed expression. -/
def isBadRequest : Except ParseError (List Statement) → Bool
  | .error _ => true
  | .ok [] => true
  | .ok (.Query (.Select (.UnnamedExpr _ :: _)) :: _) => false
  | .ok (_ :: _) => true

def FunctionArg.inner : FunctionArg → Expr
  | .Named _ a => a
  | .Unnamed a => a

/-- C5: a function call whose name is exactly `SQRT` evaluates its first
argument (named or unnamed, both unwrap to the inner expression); a `Num v`
result yields `Num (sqrt v)` for every `v` — with no sign restriction, so a
negative `v` still yields a `Num` (the floating-point not-a-number value
under IEEE semantics, abstracted here as `M.sqrt v`), never an error — and a
successful non-`Num` result yields `InvalidType`. -/

theorem calc_binaryOp_eq (M : FloatOps F) (left : Expr) (op : BinaryOperator) (right : Expr) :
    calcE M (.BinaryOp left op right) = calc_binary_operation M left op right := by
  rw [calcE]; rfl

theorem calc_function_eq (M : FloatOps F) (name : List Ident) (args : List FunctionArg) :
    calcE M (.Function name args) = calc_function M name args := by
  rw [calcE.eq_def]; rfl

theorem calc_cast_eq (M : FloatOps F) (e : Expr) (sz : Option Nat) :
    calcE M (.Cast e (.Int sz)) = castE M e := by
  rw [calcE]; rfl

/-- The external parser's error type (`sqlparser::parser::ParserError`);
opaque to the engine, which only branches on `is_err()`. -/

theorem parse_num_res_IRF (X : Option (Except CalcError (CalcResult F))) :
    numResIsIRF (parse_num_res X) = resultIsIRF X := by
  rcases X with _ | ⟨e | r⟩
  · rfl
  · rfl
  · cases r <;> rfl

theorem apply_cases (M : FloatOps F) (op : BinaryOperator) (a b : F) :
    (∃ v, apply M op a b = .ok v) ∨
      apply M op a b = .error (.UnsupportedOperator "You try to use unsupported operator") := by
  cases op <;> simp [apply]

theorem finishBinaryOp_ok_ok (M : FloatOps F) (op : BinaryOperator) (a b : F) :
    finishBinaryOp M op [.ok a, .ok b] = apply M op a b := rfl

theorem finishBinaryOp_err (M : FloatOps F) (op : BinaryOperator) (e : CalcError)
    (r : Except CalcError F) : finishBinaryOp M op [.error e, r] = .error e := by
  cases r <;> rfl

theorem finishBinaryOp_ok_err (M : FloatOps F) (op : BinaryOperator) (a : F) (e : CalcError) :
    finishBinaryOp M op [.ok a, .error e] = .error e := rfl

theorem binop_spec_aux (M : FloatOps F) (l : Expr) (op : BinaryOperator) (r : Expr) :
    calc_binary_operation M l op r = binOpSpec M l op r := by
  unfold calc_binary_operation binOpSpec
  rcases hl : parse_num M l with _ | el
  · rfl
  · rcases el with e | a
    · rcases hr : parse_num M r with _ | er
      · rfl
      · rcases er with e2 | b <;> simp [Option.bind, finishBinaryOp_err]
    · rcases hr : parse_num M r with _ | er
      · rfl
      · rcases er with e2 | b <;>
          simp [Option.bind, finishBinaryOp_ok_err, finishBinaryOp_ok_ok]

theorem parse_primitive_value_IRF (M : FloatOps F) (v : Value) :
    resultIsIRF (parse_primitive_value M v) = false := by
  cases v <;> try rfl
  case Number t l =>
    simp only [parse_primitive_value]
    rcases h : M.parse t with _ | n <;> simp [h, resultIsIRF]

theorem sqrtResult_IRF (M : FloatOps F) (X : Option (Except CalcError (CalcResult F)))
    (h : resultIsIRF X = false) : resultIsIRF (sqrtResult M X) = false := by
  rcases X with _ | ⟨e | r⟩
  · rfl
  · simpa [sqrtResult, resultIsIRF] using h
  · cases r <;> rfl

theorem castResult_IRF (M : FloatOps F) (X : Option (Except CalcError (CalcResult F)))
    (h : resultIsIRF X = false) : resultIsIRF (castResult M X) = false := by
  rcases X with _ | ⟨e | r⟩
  · rfl
  · simpa [castResult, resultIsIRF] using h
  · rcases r with v | b | s
    · rfl
    · rfl
    · simp only [castResult]
      rcases h : M.parse s with _ | v <;> simp [h, resultIsIRF, errIsIRF]

theorem finishBinaryOp_IRF (M : FloatOps F) (op : BinaryOperator)
    (le re : Except CalcError F)
    (hl : numResIsIRF (some le) = false) (hr : numResIsIRF (some re) = false) :
    resultIsIRF (some (finishBinaryOp M op [le, re])) = false := by
  rcases le with e | a
  · rw [finishBinaryOp_err]
    simpa [numResIsIRF, resultIsIRF] using hl
  · rcases re with e | b
    · rw [finishBinaryOp_ok_err]
      simpa [numResIsIRF, resultIsIRF] using hr
    · rw [finishBinaryOp_ok_ok]
      rcases apply_cases M op a b with ⟨v, hv⟩ | hv <;> simp [hv, resultIsIRF, errIsIRF]

theorem calcE_IRF_aux (M : FloatOps F) (e : Expr) : resultIsIRF (calcE M e) = false := by
  induction e using calcE.induct M with
  | case1 left op right ihl ihr =>
    rw [calcE]
    rcases hl : parse_num_res (calcE M left) with _ | le
    · rfl
    · rcases hr : parse_num_res (calcE M right) with _ | re
      · rfl
      · show resultIsIRF (some (finishBinaryOp M op [le, re])) = false
        exact finishBinaryOp_IRF M op le re
          (by rw [← hl, parse_num_res_IRF]; exact ihl)
          (by rw [← hr, parse_num_res_IRF]; exact ihr)
  | case2 args => rfl
  | case3 id tail h => simp [calcE, h, resultIsIRF, errIsIRF]
  | case4 id tail h name a tail_1 ih =>
    rw [calcE]
    simp only [h, if_true]
    exact sqrtResult_IRF M _ ih
  | case5 id tail h a tail_1 ih =>
    rw [calcE]
    simp only [h, if_true]
    exact sqrtResult_IRF M _ ih
  | case6 args id tail h =>
    cases args with
    | nil => simp [calcE, h, resultIsIRF, errIsIRF]
    | cons a rest =>
      cases a with
      | Named n ar => simp [calcE, h, resultIsIRF, errIsIRF]
      | Unnamed ar => simp [calcE, h, resultIsIRF, errIsIRF]
  | case7 v => rw [calcE]; exact parse_primitive_value_IRF M v
  | case8 e ih => rw [calcE]; exact ih
  | case9 e sz ih => rw [calcE]; exact castResult_IRF M _ ih
  | case10 t h1 h2 h3 h4 h5 =>
    cases t with
    | BinaryOp l op r => exact absurd rfl (h1 l op r)
    | Function name args => exact absurd rfl (h2 name args)
    | Value v => exact absurd rfl (h3 v)
    | Nested e => exact absurd rfl (h4 e)
    | Cast e dt =>
      cases dt with
      | Int size => exact absurd rfl (h5 e size)
      | otherDataType => rfl
    | Identifier id => rfl
    | otherExpr => rfl

theorem parse_num_def (M : FloatOps F) (e : Expr) :
    parse_num M e = parse_num_res (calcE M e) := rfl

theorem parse_num_res_ok (X : Option (Except CalcError (CalcResult F))) (a : F) :
    parse_num_res X = some (.ok a) ↔ X = some (.ok (.Num a)) := by
  rcases X with _ | ⟨e | r⟩
  · simp [parse_num_res]
  · simp [parse_num_res]
  · rcases r with v | b | s <;> simp [parse_num_res]

/-- C9: the expression evaluator `calcE` and each of its helpers
(`calc_binary_operation`, `calc_function`, `castE`) never return an
`InvalidRequestFormat` error, whatever the expression tree and whatever the
model of the floating-point operations: that error kind can only come from
`exec`'s statement-shape validation. -/

theorem calc_never_invalid_request_format (M : FloatOps F) (e : Expr)
    (left : Expr) (op : BinaryOperator) (right : Expr)
    (name : List Ident) (args : List FunctionArg) :
    resultIsIRF (calcE M e) = false
    ∧ resultIsIRF (calc_binary_operation M left op right) = false
    ∧ resultIsIRF (calc_function M name args) = false
    ∧ resultIsIRF (castE M e) = false := by
  refine ⟨calcE_IRF_aux M e, ?_, ?_, ?_⟩
  · rw [← calc_binaryOp_eq]; exact calcE_IRF_aux M _
  · rw [← calc_function_eq]; exact calcE_IRF_aux M _
  · rw [← calc_cast_eq M e none]; exact calcE_IRF_aux M _

/-- C10: in `calc_binary_operation` the final `Err(CalcError::Unexpected)`
fallback is unreachable: evaluation of a binary-operation node is exactly
described by `binOpSpec` — either both operands reduce to numbers and
`apply`'s result is returned, or the first failing operand's error is
returned (or the whole evaluation aborts); the fallback line produces
nothing. -/

theorem binary_operation_unexpected_fallback_unreachable (M : FloatOps F)
    (left : Expr) (op : BinaryOperator) (right : Expr) :
    calc_binary_operation M left op right = binOpSpec M left op right :=
  binop_spec_aux M left op right

/-- C7: `exec` returns `InvalidRequestFormat` exactly on the request shapes
enumerated by `isBadRequest` — parser failure, empty statement list, first
statement not a query, query body not a plain `SELECT`, empty projection
list, or first projection item not an unnamed expression; and for the two
boundary shapes (empty statement list, empty projection list) the result is
that `InvalidRequestFormat` error, never `Unexpected`. -/

theorem exec_invalid_request_format_iff (M : FloatOps F)
    (res : Except ParseError (List Statement)) :
    resultIsIRF (exec M res) = isBadRequest res
    ∧ exec M (.ok ([] : List Statement))
        = some (.error (.InvalidRequestFormat "It is not SQL, man"))
    ∧ (∀ stmts : List Statement, exec M (.ok (.Query (.Select []) :: stmts))
        = some (.error (.InvalidRequestFormat "only SELECT is supported"))) := by
  refine ⟨?_, rfl, fun stmts => rfl⟩
  rcases res with pe | stmts
  · rfl
  · rcases stmts with _ | ⟨stmt, rest⟩
    · rfl
    · cases stmt with
      | Query body =>
        cases body with
        | Select proj =>
          rcases proj with _ | ⟨item, items⟩
          · rfl
          · cases item with
            | UnnamedExpr e =>
              show resultIsIRF (calcE M e) = false
              exact calcE_IRF_aux M e
            | ExprWithAlias e al => rfl
            | QualifiedWildcard nm => rfl
            | Wildcard => rfl
        | SetOperation => rfl
        | otherSetExpr => rfl
      | Insert => rfl
      | otherStatement => rfl

/-- C8: for a `Number` literal whose decimal text is valid (the upstream
parser's invariant, here: the model's `parse` succeeds on it),
`parse_primitive_value` returns `Num` of the parsed value — in particular
the `.unwrap()` abort path (result `none`) is not taken and no error is
produced. -/

theorem parse_primitive_value_number_ok (M : FloatOps F) (s : String) (l : Bool)
    (v : F) (h : M.parse s = some v) :
    parse_primitive_value M (.Number s l) = some (.ok (.Num v)) := by
  simp [parse_primitive_value, h]

/-- Witness for C8 at `s = "2"` in the concrete model. -/
theorem parse_primitive_value_number_ok_witness :
    parse_primitive_value zModel (.Number "2" false) = some (.ok (.Num 2)) :=
  parse_primitive_value_number_ok zModel "2" false 2 (by decide)

/-- C2: operand-type checking precedes the operator-support check.  When both
operands reduce to numbers, `apply` (where the only operator check lives) is
called; when the left operand reduces to a non-`Num` value the result is the
operand-type error `InvalidType` whatever the operator, including unsupported
ones; likewise when the right operand does while the left is numeric; and an
`UnsupportedOperator` result can only arise with both operands numeric, or by

propagation of an operand's own error. -/
theorem binop_operand_errors_take_precedence (M : FloatOps F)
    (left : Expr) (op : BinaryOperator) (right : Expr) :
    (∀ a b : F, calcE M left = some (.ok (.Num a)) → calcE M right = some (.ok (.Num b)) →
      calc_binary_operation M left op right = some (apply M op a b))
    ∧ (∀ x : CalcResult F, calcE M left = some (.ok x) → (∀ v : F, x ≠ .Num v) →
        (∃ y, calcE M right = some y) →
        calc_binary_operation M left op right
          = some (.error (.InvalidType "Binary operators supported by Numbers only")))
    ∧ (∀ (a : F) (x : CalcResult F), calcE M left = some (.ok (.Num a)) →
        calcE M right = some (.ok x) → (∀ v : F, x ≠ .Num v) →
        calc_binary_operation M left op right
          = some (.error (.InvalidType "Binary operators supported by Numbers only")))
    ∧ (∀ m : String,
        calc_binary_operation M left op right = some (.error (.UnsupportedOperator m)) →
        (∃ a b : F, calcE M left = some (.ok (.Num a)) ∧ calcE M right = some (.ok (.Num b)))
        ∨ parse_num M left = some (.error (.UnsupportedOperator m))
        ∨ parse_num M right = some (.error (.UnsupportedOperator m))) := by
  refine ⟨?_, ?_, ?_, ?_⟩
  · intro a b h1 h2
    rw [binop_spec_aux]
    unfold binOpSpec
    rw [parse_num_def, parse_num_def, h1, h2]
    rfl
  · rintro x h1 hnv ⟨y, h2⟩
    rw [binop_spec_aux]
    unfold binOpSpec
    rw [parse_num_def, parse_num_def, h1, h2]
    rcases x with v | bv | s
    · exact absurd rfl (hnv v)
    · rcases y with e2 | r2
      · rfl
      · rcases r2 with v2 | b2 | s2 <;> rfl
    · rcases y with e2 | r2
      · rfl
      · rcases r2 with v2 | b2 | s2 <;> rfl
  · intro a x h1 h2 hnv
    rw [binop_spec_aux]
    unfold binOpSpec
    rw [parse_num_def, parse_num_def, h1, h2]
    rcases x with v | bv | s
    · exact absurd rfl (hnv v)
    · rfl
    · rfl
  · intro m h
    rw [binop_spec_aux] at h
    unfold binOpSpec at h
    rcases hl : parse_num M left with _ | el
    · rw [hl] at h; cases h
    · rcases el with e | a
      · rw [hl] at h
        rcases hr : parse_num M right with _ | z
        · rw [hr] at h; cases h
        · rw [hr] at h
          simp only [Option.map_some] at h
          injection h with h
          injection h with h
          exact Or.inr (Or.inl (by rw [h]))
      · rw [hl] at h
        rcases hr : parse_num M right with _ | er
        · rw [hr] at h; cases h
        · rcases er with e2 | b
          · rw [hr] at h
            injection h with h
            injection h with h
            exact Or.inr (Or.inr (by rw [h]))
          · rw [hr] at h
            injection h with h
            refine Or.inl ⟨a, b, ?_, ?_⟩
            · exact (parse_num_res_ok _ a).1 ((parse_num_def M left) ▸ hl)
            · exact (parse_num_res_ok _ b).1 ((parse_num_def M right) ▸ hr)

/-- Witness for C2: with an unsupported operator `/`, a non-numeric left
operand still reports `InvalidType`; and on two numeric literals the only
non-propagated `UnsupportedOperator` outcome indeed has both operands
reducing to numbers. -/
theorem binop_operand_errors_take_precedence_witness :
    calc_binary_operation zModel (.Value (.SingleQuotedString "a")) .Divide
      (.Value (.Number "2" false))
      = some (.error (.InvalidType "Binary operators supported by Numbers only"))
    ∧ ((∃ a b : ℤ, calcE zModel (.Value (.Number "1" false)) = some (.ok (.Num a))
          ∧ calcE zModel (.Value (.Number "2" false)) = some (.ok (.Num b)))
        ∨ parse_num zModel (.Value (.Number "1" false))
            = some (.error (.UnsupportedOperator "You try to use unsupported operator"))
        ∨ parse_num zModel (.Value (.Number "2" false))
            = some (.error (.UnsupportedOperator "You try to use unsupported operator"))) := by
  constructor
  · exact (binop_operand_errors_take_precedence zModel (.Value (.SingleQuotedString "a"))
      .Divide (.Value (.Number "2" false))).2.1 (.Str "a") (by decide)
      (by intro v hv; cases hv) ⟨.ok (.Num 2), by decide⟩
  · exact (binop_operand_errors_take_precedence zModel (.Value (.Number "1" false))
      .Divide (.Value (.Number "2" false))).2.2.2
      "You try to use unsupported operator" (by decide)

/-- C3: when operand reduction fails (a propagated error, or a successful
non-`Num` value, both captured by `parse_num` returning an error), the error
surfaced by `calc_binary_operation` is exactly the left operand's error when
both fail, and exactly the failing operand's error when one fails — never a
combined or rewrapped error. -/

theorem binop_first_error_surfaced (M : FloatOps F)
    (left : Expr) (op : BinaryOperator) (right : Expr) :
    (∀ e1 e2 : CalcError, parse_num M left = some (.error e1) →
      parse_num M right = some (.error e2) →
      calc_binary_operation M left op right = some (.error e1))
    ∧ (∀ (e1 : CalcError) (b : F), parse_num M left = some (.error e1) →
        parse_num M right = some (.ok b) →
        calc_binary_operation M left op right = some (.error e1))
    ∧ (∀ (a : F) (e2 : CalcError), parse_num M left = some (.ok a) →
        parse_num M right = some (.error e2) →
        calc_binary_operation M left op right = some (.error e2)) := by
  refine ⟨?_, ?_, ?_⟩ <;> intro u w h1 h2 <;> rw [binop_spec_aux] <;> unfold binOpSpec <;>
    rw [h1, h2] <;> rfl

/-- Witness for C3: both operands failing surfaces the left error (the two
errors are distinguishable by message); a single failing operand surfaces
its own error. -/
theorem binop_first_error_surfaced_witness :
    calc_binary_operation zModel (.Value .Null) .Plus (.Value (.SingleQuotedString "x"))
      = some (.error (.InvalidType "You try to use unsupported type"))
    ∧ calc_binary_operation zModel (.Value .Null) .Plus (.Value (.Number "2" false))
      = some (.error (.InvalidType "You try to use unsupported type"))
    ∧ calc_binary_operation zModel (.Value (.Number "1" false)) .Plus (.Value .Null)
      = some (.error (.InvalidType "You try to use unsupported type")) := by
  refine ⟨?_, ?_, ?_⟩
  · exact (binop_first_error_surfaced zModel (.Value .Null) .Plus
      (.Value (.SingleQuotedString "x"))).1
      (.InvalidType "You try to use unsupported type")
      (.InvalidType "Binary operators supported by Numbers only") (by decide) (by decide)
  · exact (binop_first_error_surfaced zModel (.Value .Null) .Plus
      (.Value (.Number "2" false))).2.1
      (.InvalidType "You try to use unsupported type") 2 (by decide) (by decide)
  · exact (binop_first_error_surfaced zModel (.Value (.Number "1" false)) .Plus
      (.Value .Null)).2.2
      1 (.InvalidType "You try to use unsupported type") (by decide) (by decide)

/-- C4: when both operands of a binary operation reduce to numbers `a` and
`b`, operator `+` yields `Num (a + b)`, `-` yields `Num (a - b)`, `*` yields
`Num (a * b)`, `>` yields `Bool (a > b)`, and every other operator yields the
`UnsupportedOperator` error. -/

theorem binop_numeric_operator_semantics (M : FloatOps F) (left right : Expr)
    (a b : F)
    (hl : calcE M left = some (.ok (.Num a)))
    (hr : calcE M right = some (.ok (.Num b))) :
    calc_binary_operation M left .Plus right = some (.ok (.Num (M.add a b)))
    ∧ calc_binary_operation M left .Minus right = some (.ok (.Num (M.sub a b)))
    ∧ calc_binary_operation M left .Multiply right = some (.ok (.Num (M.mul a b)))
    ∧ calc_binary_operation M left .Gt right = some (.ok (.Bool (M.gt a b)))
    ∧ (∀ op : BinaryOperator, op ≠ .Plus → op ≠ .Minus → op ≠ .Multiply → op ≠ .Gt →
        calc_binary_operation M left op right
          = some (.error (.UnsupportedOperator "You try to use unsupported operator"))) := by
  have key : ∀ op : BinaryOperator,
      calc_binary_operation M left op right = some (apply M op a b) := by
    intro op
    rw [binop_spec_aux]
    unfold binOpSpec
    rw [parse_num_def, parse_num_def, hl, hr]
    rfl
  refine ⟨key .Plus, key .Minus, key .Multiply, key .Gt, ?_⟩
  intro op h1 h2 h3 h4
  rw [key op]
  cases op <;> first
    | exact absurd rfl h1
    | exact absurd rfl h2
    | exact absurd rfl h3
    | exact absurd rfl h4
    | rfl

/-- Witness for C4 at the numeric literals 1 and 2 in the concrete model,
exercising a supported arithmetic operator, the comparison operator, and an
unsupported operator (`/`). -/
theorem binop_numeric_operator_semantics_witness :
    calc_binary_operation zModel (.Value (.Number "1" false)) .Plus
      (.Value (.Number "2" false)) = some (.ok (.Num 3))
    ∧ calc_binary_operation zModel (.Value (.Number "1" false)) .Gt
      (.Value (.Number "2" false)) = some (.ok (.Bool false))
    ∧ calc_binary_operation zModel (.Value (.Number "1" false)) .Divide
      (.Value (.Number "2" false))
      = some (.error (.UnsupportedOperator "You try to use unsupported operator")) := by
  have h := binop_numeric_operator_semantics zModel (.Value (.Number "1" false))
    (.Value (.Number "2" false)) 1 2 (by decide) (by decide)
  refine ⟨?_, ?_, ?_⟩
  · rw [h.1]; decide
  · rw [h.2.2.2.1]; decide
  · exact h.2.2.2.2 .Divide (by decide) (by decide) (by decide) (by decide)

/-- The unwrapping of a `FunctionArg` to its inner expression (lines 116-119
of `calc_function`: named and unnamed argument syntax are equivalent). -/

theorem sqrt_function_semantics (M : FloatOps F) (id : Ident) (tail : List Ident)
    (arg : FunctionArg) (rest : List FunctionArg) (h : id.value = "SQRT") :
    (∀ v : F, calcE M arg.inner = some (.ok (.Num v)) →
      calc_function M (id :: tail) (arg :: rest) = some (.ok (.Num (M.sqrt v))))
    ∧ (∀ r : CalcResult F, calcE M arg.inner = some (.ok r) → (∀ v : F, r ≠ .Num v) →
        calc_function M (id :: tail) (arg :: rest)
          = some (.error (.InvalidType "SQRT supports only Number"))) := by
  constructor
  · intro v hv
    cases arg with
    | Named n a =>
      simp only [FunctionArg.inner] at hv
      simp [calc_function, h, hv, sqrtResult]
    | Unnamed a =>
      simp only [FunctionArg.inner] at hv
      simp [calc_function, h, hv, sqrtResult]
  · intro r hr hnv
    cases arg with
    | Named n a =>
      simp only [FunctionArg.inner] at hr
      rcases r with v | bv | s
      · exact absurd rfl (hnv v)
      · simp [calc_function, h, hr, sqrtResult]
      · simp [calc_function, h, hr, sqrtResult]
    | Unnamed a =>
      simp only [FunctionArg.inner] at hr
      rcases r with v | bv | s
      · exact absurd rfl (hnv v)
      · simp [calc_function, h, hr, sqrtResult]
      · simp [calc_function, h, hr, sqrtResult]

/-- Witness for C5: `SQRT` applied to an unnamed numeric argument, to a named
numeric argument, and to a string argument, in the concrete model (whose
stand-in `sqrt` is the identity). -/
theorem sqrt_function_semantics_witness :
    calc_function zModel [⟨"SQRT", none⟩] [.Unnamed (.Value (.Number "4" false))]
      = some (.ok (.Num 4))
    ∧ calc_function zModel [⟨"SQRT", none⟩] [.Named ⟨"x", none⟩ (.Value (.Number "9" false))]
      = some (.ok (.Num 9))
    ∧ calc_function zModel [⟨"SQRT", none⟩] [.Unnamed (.Value (.SingleQuotedString "q"))]
      = some (.error (.InvalidType "SQRT supports only Number")) := by
  refine ⟨?_, ?_, ?_⟩
  · rw [(sqrt_function_semantics zModel ⟨"SQRT", none⟩ []
      (.Unnamed (.Value (.Number "4" false))) [] rfl).1 4 (by decide)]
    decide
  · rw [(sqrt_function_semantics zModel ⟨"SQRT", none⟩ []
      (.Named ⟨"x", none⟩ (.Value (.Number "9" false))) [] rfl).1 9 (by decide)]
    decide
  · exact (sqrt_function_semantics zModel ⟨"SQRT", none⟩ []
      (.Unnamed (.Value (.SingleQuotedString "q"))) [] rfl).2 (.Str "q") (by decide)
      (by intro v hv; cases hv)

/-- C1 counterexample: in `CAST(1 AS INT)` the inner expression reduces
successfully to `Num 1` — a variant other than `Str` — and the result is the
error `Unexpected`, not `InvalidType` as the claim states. -/

theorem cast_non_str_counterexample :
    calcE zModel (.Cast (.Value (.Number "1" false)) (.Int none))
      = some (.error .Unexpected) := by decide

/-- C1 (amended): evaluating `CAST(e AS INT)` first evaluates `e`; a `Str`
whose text parses numerically yields that `Num`, a `Str` whose text fails
numeric parsing yields `InvalidType`, an error propagates unchanged, and a
successful reduction to any variant other than `Str` (`Num` or `Bool`)
yields the error `Unexpected` — not `InvalidType` as originally claimed. -/
theorem cast_semantics (M : FloatOps F) (e : Expr) (sz : Option Nat) :
    (∀ (s : String) (v : F), calcE M e = some (.ok (.Str s)) → M.parse s = some v →
      calcE M (.Cast e (.Int sz)) = some (.ok (.Num v)))
    ∧ (∀ s : String, calcE M e = some (.ok (.Str s)) → M.parse s = none →
        calcE M (.Cast e (.Int sz))
          = some (.error (.InvalidType "CAST supports only Number")))
    ∧ (∀ err : CalcError, calcE M e = some (.error err) →
        calcE M (.Cast e (.Int sz)) = some (.error err))
    ∧ (∀ r : CalcResult F, calcE M e = some (.ok r) → (∀ s : String, r ≠ .Str s) →
        calcE M (.Cast e (.Int sz)) = some (.error .Unexpected)) := by
  refine ⟨?_, ?_, ?_, ?_⟩
  · intro s v h1 h2
    rw [calc_cast_eq]
    unfold castE
    rw [h1]
    simp [castResult, h2]
  · intro s h1 h2
    rw [calc_cast_eq]
    unfold castE
    rw [h1]
    simp [castResult, h2]
  · intro err h1
    rw [calc_cast_eq]
    unfold castE
    rw [h1]
    rfl
  · intro r h1 hns
    rw [calc_cast_eq]
    unfold castE
    rw [h1]
    rcases r with v | bv | s
    · rfl
    · rfl
    · exact absurd rfl (hns s)

/-- Witness for C1's amended theorem: a parsable cast string, an unparsable
cast string, a propagated inner error, and a non-`Str` success, each at a
concrete input in the concrete model. -/
theorem cast_semantics_witness :
    calcE zModel (.Cast (.Value (.SingleQuotedString "2")) (.Int none))
      = some (.ok (.Num 2))
    ∧ calcE zModel (.Cast (.Value (.SingleQuotedString "qwe")) (.Int none))
      = some (.error (.InvalidType "CAST supports only Number"))
    ∧ calcE zModel (.Cast (.Value .Null) (.Int none))
      = some (.error (.InvalidType "You try to use unsupported type"))
    ∧ calcE zModel (.Cast (.Value (.Number "3" false)) (.Int none))
      = some (.error .Unexpected) := by
  refine ⟨?_, ?_, ?_, ?_⟩
  · exact (cast_semantics zModel (.Value (.SingleQuotedString "2")) none).1
      "2" 2 (by decide) (by decide)
  · exact (cast_semantics zModel (.Value (.SingleQuotedString "qwe")) none).2.1
      "qwe" (by decide) (by decide)
  · exact (cast_semantics zModel (.Value .Null) none).2.2.1
      (.InvalidType "You try to use unsupported type") (by decide)
  · exact (cast_semantics zModel (.Value (.Number "3" false)) none).2.2.2
      (.Num 3) (by decide) (by intro s hs; cases hs)

/-- C6 counterexample: a `SQRT` call with two arguments does not error — it
evaluates the first argument and ignores the second, yielding `Num 4` — so
`SQRT` does not require exactly one argument, only at least one. -/

theorem sqrt_two_arguments_counterexample :
    calc_function zModel [⟨"SQRT", none⟩]
      [.Unnamed (.Value (.Number "4" false)), .Unnamed (.Value (.Number "9" false))]
      = some (.ok (.Num 4)) := by decide

/-- C6 (amended): any function name other than the case-sensitive exact
string `SQRT` yields `UnsupportedFunc`; `SQRT` requires at least one argument
— a call with zero arguments yields `InvalidType` — and arguments beyond the
first are ignored (a call with extra arguments behaves exactly as the call
with only its first argument). -/
theorem function_dispatch (M : FloatOps F) (id : Ident) (tail : List Ident)
    (args : List FunctionArg) (arg : FunctionArg) (rest : List FunctionArg) :
    (id.value ≠ "SQRT" → calc_function M (id :: tail) args
      = some (.error (.UnsupportedFunc "Only SQRT func is supported")))
    ∧ (id.value = "SQRT" → calc_function M (id :: tail) ([] : List FunctionArg)
        = some (.error (.InvalidType "SQRT must has an argument")))
    ∧ calc_function M (id :: tail) (arg :: rest) = calc_function M (id :: tail) [arg] := by
  refine ⟨?_, ?_, ?_⟩
  · intro h
    rcases args with _ | ⟨a, r⟩
    · simp [calc_function, h]
    · cases a with
      | Named n x => simp [calc_function, h]
      | Unnamed x => simp [calc_function, h]
  · intro h
    simp [calc_function, h]
  · cases arg with
    | Named n x => by_cases h : id.value = "SQRT" <;> simp [calc_function, h]
    | Unnamed x => by_cases h : id.value = "SQRT" <;> simp [calc_function, h]

/-- Witness for C6's amended theorem: lowercase `sqrt` and `LOG` are
rejected as unsupported functions (case sensitivity), `SQRT` with no
arguments is an `InvalidType` error, and `SQRT` with two arguments equals
`SQRT` with just the first. -/
theorem function_dispatch_witness :
    calc_function zModel [⟨"sqrt", none⟩] [.Unnamed (.Value (.Number "4" false))]
      = some (.error (.UnsupportedFunc "Only SQRT func is supported"))
    ∧ calc_function zModel [⟨"LOG", none⟩] [.Unnamed (.Value (.Number "2" false))]
      = some (.error (.UnsupportedFunc "Only SQRT func is supported"))
    ∧ calc_function zModel [⟨"SQRT", none⟩] []
      = some (.error (.InvalidType "SQRT must has an argument"))
    ∧ calc_function zModel [⟨"SQRT", none⟩]
        [.Unnamed (.Value (.Number "4" false)), .Unnamed (.Value (.Number "9" false))]
      = calc_function zModel [⟨"SQRT", none⟩] [.Unnamed (.Value (.Number "4" false))] := by
  refine ⟨?_, ?_, ?_, ?_⟩
  · exact (function_dispatch zModel ⟨"sqrt", none⟩ []
      [.Unnamed (.Value (.Number "4" false))] (.Unnamed .otherExpr) []).1 (by decide)
  · exact (function_dispatch zModel ⟨"LOG", none⟩ []
      [.Unnamed (.Value (.Number "2" false))] (.Unnamed .otherExpr) []).1 (by decide)
  · exact (function_dispatch zModel ⟨"SQRT", none⟩ [] [] (.Unnamed .otherExpr) []).2.1 rfl
  · exact (function_dispatch zModel ⟨"SQRT", none⟩ [] []
      (.Unnamed (.Value (.Number "4" false)))
      [.Unnamed (.Value (.Number "9" false))]).2.2
